import Mathlib

/-!
Verification of the self-correction pipeline of the SQL-Project repository.

The Python sources under `self_correction/` are shallowly embedded here.
Python strings are modelled as `List Char` (`PyStr`), so that every string
primitive used by the code (strip, startswith, split, substring search,
upper/lower, …) is an executable Lean function whose behaviour mirrors the
corresponding Python operation on ASCII-compatible text.  Effectful
collaborators (the SQLite database, the remote LLM transport, the randomness
source) are modelled as oracle parameters, and unhandled Python exceptions
are modelled by explicit fault-injection points.
-/

set_option autoImplicit false

namespace SqlProject

/-- Python `str` modelled as a list of characters. -/
abbrev PyStr := List Char

/-- Coerce a Lean string literal to the `PyStr` model. -/
def pys (s : String) : PyStr := s.data

/-- Python whitespace test (the ASCII characters stripped by `str.strip`). -/
def isWS (c : Char) : Bool := c = ' ' || c = '\t' || c = '\n' || c = '\r'

/-- `str.lstrip()` on whitespace. -/
def lstrip (s : PyStr) : PyStr := s.dropWhile isWS

/-- `str.rstrip()` on whitespace. -/
def rstrip (s : PyStr) : PyStr := (s.reverse.dropWhile isWS).reverse

/-- `str.strip()`. -/
def pyStrip (s : PyStr) : PyStr := rstrip (lstrip s)

/-- `str.upper()` (ASCII). -/
def pyUpper (s : PyStr) : PyStr := s.map Char.toUpper

/-- `str.lower()` (ASCII). -/
def pyLower (s : PyStr) : PyStr := s.map Char.toLower

/-- Python `pat in s` substring containment. -/
def containsSub (s pat : PyStr) : Bool := s.tails.any (fun t => List.isPrefixOf pat t)

/-- Prefix of `s` before the first occurrence of `pat`
    (Python `s.split(pat)[0]` when `pat in s`, and `s` itself otherwise). -/
def takeUntilSub (pat : PyStr) : PyStr → PyStr
  | [] => []
  | c :: r => if List.isPrefixOf pat (c :: r) then [] else c :: takeUntilSub pat r

/-- Suffix of `s` after the first occurrence of `pat`
    (Python `s.split(pat, 1)[1]` when `pat in s`). -/
def dropThroughSub (pat : PyStr) : PyStr → PyStr
  | [] => []
  | c :: r => if List.isPrefixOf pat (c :: r) then (c :: r).drop pat.length
              else dropThroughSub pat r

/-- Index of the first occurrence of `pat` in `s` (Python `s.find(pat)`),
    `none` when absent. -/
def findSubIdx (pat : PyStr) : PyStr → Option Nat
  | [] => if pat = [] then some 0 else none
  | c :: r => if List.isPrefixOf pat (c :: r) then some 0
              else (findSubIdx pat r).map (· + 1)

/-- Helper for `countSub`: `skip` is the number of characters still covered by
    the most recently counted occurrence (Python counts non-overlapping
    occurrences from the left). -/
def countSubAux (pat : PyStr) : PyStr → Nat → Nat
  | [], _ => 0
  | c :: r, skip =>
    if skip > 0 then countSubAux pat r (skip - 1)
    else if List.isPrefixOf pat (c :: r) ∧ pat ≠ [] then
      1 + countSubAux pat r (pat.length - 1)
    else countSubAux pat r 0

/-- Count of non-overlapping occurrences of `pat` in `s` (Python `s.count(pat)`
    for a non-empty `pat`). -/
def countSub (pat : PyStr) (s : PyStr) : Nat := countSubAux pat s 0

/-- `str.split(sep)` for a single-character separator (here only `'\n'`). -/
def splitOnChar (sep : Char) : PyStr → List PyStr
  | [] => [[]]
  | c :: r =>
    let rest := splitOnChar sep r
    if c = sep then [] :: rest
    else
      match rest with
      | [] => [[c]]
      | h :: t => (c :: h) :: t

/-- `str.split()` with no separator: whitespace-run splitting, empties dropped.
    `acc` holds the (reversed) word currently being read. -/
def pyWordsAux : PyStr → PyStr → List PyStr
  | acc, [] => if acc = [] then [] else [acc.reverse]
  | acc, c :: r =>
    if isWS c then
      if acc = [] then pyWordsAux [] r else acc.reverse :: pyWordsAux [] r
    else
      pyWordsAux (c :: acc) r

def pyWords (s : PyStr) : List PyStr := pyWordsAux [] s

/-- `' '.join(s.split())`: collapse whitespace runs to single spaces. -/
def normalizeWs (s : PyStr) : PyStr := List.intercalate (pys " ") (pyWords s)

/-- `str.rstrip(';')`. -/
def rstripSemi (s : PyStr) : PyStr := (s.reverse.dropWhile (· = ';')).reverse

/-- Character class `\w` of Python's `re` module (ASCII fragment). -/
def isWordChar (c : Char) : Bool := c.isAlphanum || c = '_'

/-- `\b` holds before the current position when the previous character (if
    any) is not a word character. -/
def prevBoundaryOk : Option Char → Bool
  | none => true
  | some c => ! isWordChar c

/-- The literal word `pat` occurs at the head of `s` with a word boundary
    after it. -/
def wordOccursAt (pat s : PyStr) : Bool :=
  List.isPrefixOf pat s &&
    (match s.drop pat.length with
     | [] => true
     | c :: _ => ! isWordChar c)

/-- Scanner for `re.search(r'\b<pat>\b', s)`: tries every position, tracking
    the previous character for the leading boundary. -/
def wordSearchAux (pat : PyStr) : Option Char → PyStr → Bool
  | prev, [] => prevBoundaryOk prev && pat.isEmpty
  | prev, c :: r =>
    (prevBoundaryOk prev && wordOccursAt pat (c :: r)) || wordSearchAux pat (some c) r

/-- `re.search(r'\b<pat>\b', s)` for a literal word `pat`. -/
def wordSearch (pat s : PyStr) : Bool := wordSearchAux pat none s

/-- Greedy matcher step: one or more characters of class `p`
    (regex `<class>+`; the classes used below are disjoint from what follows
    them, so greedy matching is exact). -/
def munch1 (p : Char → Bool) : PyStr → Option PyStr
  | [] => none
  | c :: r => if p c then some (r.dropWhile p) else none

/-- Literal matcher step. -/
def matchLit (pat : PyStr) (s : PyStr) : Option PyStr :=
  if List.isPrefixOf pat s then some (s.drop pat.length) else none

/-- The regex `FROM\s+\w+\s+WHERE\s+\w+\.\w+` (case-insensitive: matched
    against the lowercased text) matches at the head of `s`. -/
def fromWhereAt (s : PyStr) : Bool :=
  (Option.bind (matchLit (pys "from") s) fun s1 =>
    Option.bind (munch1 isWS s1) fun s2 =>
    Option.bind (munch1 isWordChar s2) fun s3 =>
    Option.bind (munch1 isWS s3) fun s4 =>
    Option.bind (matchLit (pys "where") s4) fun s5 =>
    Option.bind (munch1 isWS s5) fun s6 =>
    Option.bind (munch1 isWordChar s6) fun s7 =>
    Option.bind (matchLit (pys ".") s7) fun s8 =>
    munch1 isWordChar s8).isSome

/-- `re.search` of the `FROM … WHERE alias.column` pattern anywhere in `s`. -/
def searchFromWhere : PyStr → Bool
  | [] => false
  | c :: r => fromWhereAt (c :: r) || searchFromWhere r

/-! ## ExecutionResult (sql_validator.py) -/

/-- `ExecutionResult` from `sql_validator.py`: executable flag, optional error
    message, optional result-row count.  (The elapsed-time field plays no role
    in any claim and carries no information the claims consult, but is kept
    for shape fidelity.) -/
structure ExecutionResult where
  is_executable : Bool
  error_message : Option PyStr
  result_count : Option Nat
  deriving DecidableEq, Repr

/-! ## Decision policy (`SelfCorrectionModule._should_attempt_correction`) -/

/-- Embedding of `_has_potential_improvements`
    (self_correction_module.py lines 235–250). -/
def hasPotentialImprovements (sql nlq : PyStr) : Bool :=
  (decide (countSub (pys "SELECT") sql > 1) && decide (sql.length < 100))
  || (containsSub (pyUpper sql) (pys "JOIN") && ! containsSub (pyUpper sql) (pys "ON"))
  || (containsSub (pyUpper sql) (pys "SELECT *")
      && [pys "name", pys "id", pys "count"].any (fun w => containsSub (pyLower nlq) w))

/-- Embedding of `_should_attempt_correction`
    (self_correction_module.py lines 185–233).  The randomness draw
    `random.random() < 0.02` is injected as the boolean `randHit`. -/
def shouldAttemptCorrection (sql : PyStr) (validation_result : ExecutionResult)
    (nlq : PyStr) (randHit : Bool) : Bool × PyStr :=
  if ¬ validation_result.is_executable then (true, pys "SQL不可执行")
  else if validation_result.result_count = some 0 then
    (true, pys "SQL可执行但返回空结果")
  else if wordSearch (pys "students") (pyLower sql) then
    (true, pys "发现可能错误模式: table_name_plural")
  else if wordSearch (pys "singers") (pyLower sql) then
    (true, pys "发现可能错误模式: table_name_plural")
  else if wordSearch (pys "name") (pyLower sql) then
    (true, pys "发现可能错误模式: column_name_case")
  else if wordSearch (pys "population") (pyLower sql) then
    (true, pys "发现可能错误模式: column_name_case")
  else if wordSearch (pys "age") (pyLower sql) then
    (true, pys "发现可能错误模式: column_name_case")
  else if searchFromWhere (pyLower sql) then
    (true, pys "发现可能错误模式: possible_redundant_reference")
  else if containsSub (pyLower nlq) (pys "how many")
      && ! containsSub (pyLower sql) (pys "count(") then
    (true, pys "问题询问数量但SQL中无count函数")
  else if containsSub (pyLower nlq) (pys "average")
      && ! containsSub (pyLower sql) (pys "avg(") then
    (true, pys "问题询问平均值但SQL中无avg函数")
  else if containsSub (pyLower nlq) (pys "maximum")
      && ! containsSub (pyLower sql) (pys "max(") then
    (true, pys "问题询问最大值但SQL中无max函数")
  else if containsSub (pyLower nlq) (pys "minimum")
      && ! containsSub (pyLower sql) (pys "min(") then
    (true, pys "问题询问最小值但SQL中无min函数")
  else if hasPotentialImprovements sql nlq then
    (true, pys "发现潜在改进点")
  else if randHit then
    (true, pys "随机选择进行修正（探索模式）")
  else (false, pys "SQL判定为无需修正")

/-! ## Fallback arbiter (`SelfCorrectionModule._apply_intelligent_fallback_strategy`) -/

/-- Embedding of `_apply_intelligent_fallback_strategy`
    (self_correction_module.py lines 272–309).  Python's float literal `1.2`
    denotes the comparison `len(corrected) < len(initial) * 1.2`, i.e. the
    rational test `5 * len(corrected) < 6 * len(initial)`. -/
def applyIntelligentFallbackStrategy (initial_sql : PyStr)
    (initial_validation_result : ExecutionResult) (corrected_sql : PyStr)
    (corrected_validation_result : ExecutionResult) : PyStr × PyStr :=
  if corrected_sql ≠ [] ∧ corrected_validation_result.is_executable
      ∧ ¬ initial_validation_result.is_executable then
    (corrected_sql, pys "corrected")
  else if corrected_sql ≠ [] ∧ corrected_validation_result.is_executable
      ∧ initial_validation_result.is_executable then
    if 5 * corrected_sql.length < 6 * initial_sql.length then
      (corrected_sql, pys "corrected")
    else
      (initial_sql, pys "fallback_corrected_too_complex")
  else if initial_validation_result.is_executable
      ∧ (corrected_sql = [] ∨ ¬ corrected_validation_result.is_executable) then
    (initial_sql, pys "fallback_to_initial")
  else
    (initial_sql, pys "both_not_executable")

/-- The final SQL chosen by the arbiter is always one of its two inputs. -/
theorem fallback_fst_mem (i c : PyStr) (ivr cvr : ExecutionResult) :
    (applyIntelligentFallbackStrategy i ivr c cvr).1 = c
      ∨ (applyIntelligentFallbackStrategy i ivr c cvr).1 = i := by
  unfold applyIntelligentFallbackStrategy
  split
  · exact Or.inl rfl
  · split
    · split
      · exact Or.inl rfl
      · exact Or.inr rfl
    · split
      · exact Or.inr rfl
      · exact Or.inr rfl

/-- The status tag produced by the arbiter is one of its four literals. -/
theorem fallback_snd_mem (i c : PyStr) (ivr cvr : ExecutionResult) :
    (applyIntelligentFallbackStrategy i ivr c cvr).2 = pys "corrected"
      ∨ (applyIntelligentFallbackStrategy i ivr c cvr).2 = pys "fallback_corrected_too_complex"
      ∨ (applyIntelligentFallbackStrategy i ivr c cvr).2 = pys "fallback_to_initial"
      ∨ (applyIntelligentFallbackStrategy i ivr c cvr).2 = pys "both_not_executable" := by
  unfold applyIntelligentFallbackStrategy
  split
  · exact Or.inl rfl
  · split
    · split
      · exact Or.inl rfl
      · exact Or.inr (Or.inl rfl)
    · split
      · exact Or.inr (Or.inr (Or.inl rfl))
      · exact Or.inr (Or.inr (Or.inr rfl))

/-- Claim C2: the fallback arbiter is a pure function of the decision table
    over (initial executable?, corrected present-and-executable?, corrected
    length vs `1.2 ×` initial length): initial not executable and corrected
    executable gives `(corrected, "corrected")`; both executable and
    `len(corrected) < 1.2 * len(initial)` gives `(corrected, "corrected")`;
    both executable otherwise gives
    `(initial, "fallback_corrected_too_complex")`; initial executable with
    corrected absent or not executable gives `(initial, "fallback_to_initial")`;
    neither executable gives `(initial, "both_not_executable")`.  In
    particular, with both executable, `len(initial) = 20` and
    `len(corrected) = 22` yields `"corrected"`, while `len(corrected) = 30`
    yields `"fallback_corrected_too_complex"`. -/
theorem fallback_arbiter_table :
    (∀ (i c : PyStr) (ivr cvr : ExecutionResult),
      applyIntelligentFallbackStrategy i ivr c cvr =
        (if ¬ ivr.is_executable ∧ (c ≠ [] ∧ cvr.is_executable) then
           (c, pys "corrected")
         else if ivr.is_executable ∧ (c ≠ [] ∧ cvr.is_executable) then
           (if 5 * c.length < 6 * i.length then (c, pys "corrected")
            else (i, pys "fallback_corrected_too_complex"))
         else if ivr.is_executable then (i, pys "fallback_to_initial")
         else (i, pys "both_not_executable")))
    ∧ applyIntelligentFallbackStrategy (List.replicate 20 'a')
        ⟨true, none, some 1⟩ (List.replicate 22 'b') ⟨true, none, some 1⟩
        = (List.replicate 22 'b', pys "corrected")
    ∧ applyIntelligentFallbackStrategy (List.replicate 20 'a')
        ⟨true, none, some 1⟩ (List.replicate 30 'b') ⟨true, none, some 1⟩
        = (List.replicate 20 'a', pys "fallback_corrected_too_complex") := by
  refine ⟨fun i c ivr cvr => ?_, by decide, by decide⟩
  unfold applyIntelligentFallbackStrategy
  rcases ivr with ⟨ie, iem, irc⟩
  rcases cvr with ⟨ce, cem, crc⟩
  by_cases hc : c = [] <;> cases ie <;> cases ce <;> simp [hc]

/-! ## Response parser (`_parse_llm_response` / `_extract_sql_from_text`) -/

/-- The marker strings searched by `_parse_llm_response`, in order. -/
def sqlMarkers : List PyStr :=
  [pys "Fixed SQL:", pys "Corrected SQL:", pys "Correct SQL:", pys "SQL:", pys "Fixed:"]

/-- The statement keywords consulted by `_extract_sql_from_text` (line 454).
    Note: `WITH` is absent here, although `_parse_llm_response` (line 410)
    does search for it. -/
def extractKeywords : List PyStr :=
  [pys "SELECT", pys "INSERT", pys "UPDATE", pys "DELETE"]

/-- The statement keywords searched by `_parse_llm_response` (line 410). -/
def parseKeywords : List PyStr :=
  [pys "SELECT", pys "INSERT", pys "UPDATE", pys "DELETE", pys "WITH"]

/-- The default `llm_stop_sequences` of `SelfCorrectionConfig` (config.py
    line 27). -/
def configStops : List PyStr := [pys "#;\n\n", pys "\n\n---", pys "---\n"]

/-- The fenced-code-marker stripping at the head of `_extract_sql_from_text`
    (lines 434–440: strip, `if/elif` on the opening fence, `if` on the
    closing fence). -/
def stripCodeFence (text : PyStr) : PyStr :=
  let t := pyStrip text
  let t := if List.isPrefixOf (pys "```sql") t then pyStrip (t.drop 6)
           else if List.isPrefixOf (pys "```") t then pyStrip (t.drop 3)
           else t
  if List.isSuffixOf (pys "```") t then pyStrip (t.take (t.length - 3)) else t

/-- The stop-sequence loop of `_extract_sql_from_text` (lines 443–445): each
    configured stop sequence present in the text truncates it at the first
    occurrence, followed by a strip. -/
def applyStopSeqs (stops : List PyStr) (t : PyStr) : PyStr :=
  stops.foldl
    (fun acc stop => if containsSub acc stop then pyStrip (takeUntilSub stop acc) else acc) t

/-- One pass of the line scan of `_extract_sql_from_text` (lines 449–455):
    a stripped non-comment, non-blank line yields its candidate (trailing
    semicolons removed, re-stripped) when the candidate is longer than 10
    characters and contains one of the four statement keywords. -/
def lineCandidate (line : PyStr) : Option PyStr :=
  let l := pyStrip line
  if l ≠ [] && ! List.isPrefixOf (pys "#") l && ! List.isPrefixOf (pys "--") l
      && ! List.isPrefixOf (pys "Note:") l then
    let cand := pyStrip (rstripSemi l)
    if decide (cand.length > 10) && extractKeywords.any (fun k => containsSub (pyUpper cand) k) then
      some cand
    else none
  else none

/-- Embedding of `_extract_sql_from_text` (self_correction_module.py lines
    428–457). -/
def extractSqlFromText (stops : List PyStr) (text : PyStr) : Option PyStr :=
  if text = [] then none
  else
    (splitOnChar '\n' (applyStopSeqs stops (stripCodeFence text))).findSome? lineCandidate

/-- The marker loop of `_parse_llm_response` (lines 394–407): for each marker
    contained in the text, try extraction on what follows its first
    occurrence; fall through to the next marker on failure. -/
def tryMarkers (stops : List PyStr) (cleaned : PyStr) : List PyStr → Option PyStr
  | [] => none
  | m :: ms =>
    if containsSub cleaned m then
      match extractSqlFromText stops (pyStrip (dropThroughSub m cleaned)) with
      | some c => some c
      | none => tryMarkers stops cleaned ms
    else tryMarkers stops cleaned ms

/-- The keyword loop of `_parse_llm_response` (lines 409–418): for each
    statement keyword found in the uppercased text, try extraction on the
    slice starting at its first occurrence. -/
def tryKeywords (stops : List PyStr) (cleaned : PyStr) : List PyStr → Option PyStr
  | [] => none
  | k :: ks =>
    match findSubIdx k (pyUpper cleaned) with
    | some i =>
      match extractSqlFromText stops (cleaned.drop i) with
      | some c => some c
      | none => tryKeywords stops cleaned ks
    | none => tryKeywords stops cleaned ks

/-- Embedding of `_parse_llm_response` (self_correction_module.py lines
    385–426). -/
def parseLlmResponse (stops : List PyStr) (response_text : PyStr) : Option PyStr :=
  if response_text = [] then none
  else
    let cleaned := pyStrip response_text
    match tryMarkers stops cleaned sqlMarkers with
    | some c => some c
    | none =>
      match tryKeywords stops cleaned parseKeywords with
      | some c => some c
      | none =>
        if [pys "FROM", pys "WHERE", pys "JOIN"].any (fun p => containsSub (pyUpper cleaned) p)
        then extractSqlFromText stops cleaned
        else none

/-! ## SQL validator (`SQLValidator.execute_sql`, sql_validator.py) -/

/-- Embedding of `SQLValidator._clean_sql` (sql_validator.py lines 129–154). -/
def cleanSql (sql : PyStr) : PyStr :=
  if sql = [] then []
  else
    let c := pyStrip sql
    let c := if List.isSuffixOf (pys ";") c then pyStrip (c.take (c.length - 1)) else c
    let c := if List.isPrefixOf (pys "```sql") c then pyStrip (c.drop 6) else c
    let c := if List.isPrefixOf (pys "```") c then pyStrip (c.drop 3) else c
    let c := if List.isSuffixOf (pys "```") c then pyStrip (c.take (c.length - 3)) else c
    normalizeWs c

/-- The possible outcomes of `cursor.execute` on the target database, as the
    exception classes distinguished by `execute_sql`. -/
inductive ExecOutcome where
  | ok
  | operationalError (msg : PyStr)
  | integrityError (msg : PyStr)
  | sqliteError (msg : PyStr)
  | otherError (msg : PyStr)
  deriving DecidableEq, Repr

/-- Oracle for the SQLite engine on one database file: whether the file
    exists, the outcome of executing a (cleaned) statement, and the row count
    returned by `fetchall` (`none` models a `sqlite3.Error` during the
    fetch). -/
structure DbOracle where
  dbExists : Bool
  exec : PyStr → ExecOutcome
  fetch : PyStr → Option Nat

/-- The `sqlite3.OperationalError` message classification of `execute_sql`
    (lines 90–105). -/
def classifyOperationalError (m : PyStr) : PyStr :=
  let low := pyLower m
  if containsSub low (pys "timeout") || containsSub low (pys "database is locked") then
    pys "Execution timeout or database locked: " ++ m
  else if containsSub low (pys "syntax error") || containsSub low (pys "near") then
    pys "Syntax error: " ++ m
  else if containsSub low (pys "no such table") || containsSub low (pys "no such column") then
    pys "Schema error: " ++ m
  else pys "Operational error: " ++ m

/-- Embedding of `SQLValidator.execute_sql` (sql_validator.py lines 37–127). -/
def executeSql (db : DbOracle) (sql db_path : PyStr) (fetchResults : Bool) : ExecutionResult :=
  if sql = [] ∨ pyStrip sql = [] then ⟨false, some (pys "SQL query is empty"), none⟩
  else if db_path = [] ∨ ¬ db.dbExists then
    ⟨false, some (pys "Database file not found: " ++ db_path), none⟩
  else if cleanSql sql = [] then
    ⟨false, some (pys "SQL query is empty after cleaning"), none⟩
  else
    match db.exec (cleanSql sql) with
    | ExecOutcome.ok =>
      ⟨true, none,
        if fetchResults
            && List.isPrefixOf (pys "SELECT") (pyUpper (pyStrip (cleanSql sql))) then
          db.fetch (cleanSql sql)
        else none⟩
    | ExecOutcome.operationalError m => ⟨false, some (classifyOperationalError m), none⟩
    | ExecOutcome.integrityError m =>
      ⟨false, some (pys "Integrity constraint violation: " ++ m), none⟩
    | ExecOutcome.sqliteError m => ⟨false, some (pys "SQLite error: " ++ m), none⟩
    | ExecOutcome.otherError m => ⟨false, some (pys "Unexpected error: " ++ m), none⟩

/-! ## Orchestrator (`SelfCorrectionModule.process`)

`process` is embedded as a function of an oracle environment:
the database engine, the configured stop sequences, the randomness draw,
the LLM transport outcome, and an optional injected unhandled exception
(`FaultPoint`) at one of the fallible steps downstream of the decision.

Python control-flow facts baked into the embedding, traced from
self_correction_module.py lines 86–183:
* the `finally` block (lines 180–183) runs `_save_log` and *returns*
  `correction_log["final_sql_output"], correction_log["correction_status"]`,
  overriding any `return` executed inside the `try` block;
* consequently the skip path (line 101) and the `LLMError` path (line 141),
  which each call `_save_log` before returning, write the log twice — once
  early and once in `finally` — while every other path writes it once;
* `correction_log["final_sql_output"]` starts as the initial SQL (line 74)
  and is reassigned only on the skip path (to the initial SQL again) and
  after arbitration (line 169), so every fault path returns the initial SQL.

The `saves` field counts the `_save_log` calls made for the request. -/

/-- The fallible steps of `process` downstream of the decision at which an
    unhandled (non-`LLMError`) exception may arise, reaching the outer
    `except Exception` handler (lines 173–178). -/
inductive FaultPoint where
  | buildPrompt
  | llmCallOther
  | parse
  | validateCorrected
  | arbitrate
  deriving DecidableEq, Repr

/-- Oracle environment for one `process` request. -/
structure ProcEnv where
  db : DbOracle
  stops : List PyStr
  randHit : Bool
  llmResult : Except PyStr PyStr
  fault : Option FaultPoint

/-- Observable outcome of `process`: the returned pair plus the number of
    audit-log writes performed. -/
structure ProcOut where
  final_sql : PyStr
  status : PyStr
  saves : Nat
  deriving DecidableEq, Repr

/-- Embedding of `SelfCorrectionModule._validate_sql`
    (self_correction_module.py lines 459–467): guards empty inputs, then
    defers to `SQLValidator.execute_sql` (with `fetch_results=True`). -/
def validateSql (db : DbOracle) (sql db_path : PyStr) : ExecutionResult :=
  if sql = [] ∨ db_path = [] then ⟨false, some (pys "SQL or DB path is empty"), none⟩
  else executeSql db sql db_path true

/-- Python truthiness collapse for the parsed LLM answer: `None` and the
    empty string both fail the `if corrected_sql:` tests at lines 151 and
    166. -/
def truthyOpt : Option PyStr → Option PyStr
  | some [] => none
  | o => o

/-- Embedding of `SelfCorrectionModule.process`
    (self_correction_module.py lines 63–183). -/
def process (env : ProcEnv) (nlq initial_sql db_path : PyStr) : ProcOut :=
  if (shouldAttemptCorrection initial_sql (validateSql env.db initial_sql db_path)
        nlq env.randHit).1 = false then
    ⟨initial_sql, pys "no_correction_needed", 2⟩
  else if env.fault = some FaultPoint.buildPrompt
      ∨ env.fault = some FaultPoint.llmCallOther then
    ⟨initial_sql, pys "internal_error", 1⟩
  else
    match env.llmResult with
    | Except.error _ => ⟨initial_sql, pys "api_error", 2⟩
    | Except.ok raw =>
      if env.fault = some FaultPoint.parse then
        ⟨initial_sql, pys "internal_error", 1⟩
      else if env.fault = some FaultPoint.validateCorrected then
        ⟨initial_sql, pys "internal_error", 1⟩
      else if env.fault = some FaultPoint.arbitrate then
        ⟨initial_sql, pys "internal_error", 1⟩
      else
        match truthyOpt (parseLlmResponse env.stops raw) with
        | some c =>
          ⟨(applyIntelligentFallbackStrategy initial_sql
              (validateSql env.db initial_sql db_path) c
              (validateSql env.db c db_path)).1,
           (applyIntelligentFallbackStrategy initial_sql
              (validateSql env.db initial_sql db_path) c
              (validateSql env.db c db_path)).2, 1⟩
        | none =>
          ⟨(applyIntelligentFallbackStrategy initial_sql
              (validateSql env.db initial_sql db_path) initial_sql
              ⟨false, some (pys "No corrected SQL to validate"), none⟩).1,
           (applyIntelligentFallbackStrategy initial_sql
              (validateSql env.db initial_sql db_path) initial_sql
              ⟨false, some (pys "No corrected SQL to validate"), none⟩).2, 1⟩

/-- If the Python-truthiness collapse yields `some c`, the underlying parse
    already yielded `some c`. -/
theorem truthyOpt_eq_some {o : Option PyStr} {c : PyStr} (h : truthyOpt o = some c) :
    o = some c := by
  cases o with
  | none => exact absurd h (by simp [truthyOpt])
  | some l =>
    cases l with
    | nil => exact absurd h (by simp [truthyOpt])
    | cons a r => exact h

/-- Exhaustive enumeration of the observable outcomes of `process`. -/
theorem process_cases (env : ProcEnv) (nlq i d : PyStr) :
    ((shouldAttemptCorrection i (validateSql env.db i d) nlq env.randHit).1 = false
      ∧ process env nlq i d = ⟨i, pys "no_correction_needed", 2⟩)
    ∨ process env nlq i d = ⟨i, pys "internal_error", 1⟩
    ∨ process env nlq i d = ⟨i, pys "api_error", 2⟩
    ∨ (∃ raw c,
        env.llmResult = Except.ok raw
        ∧ parseLlmResponse env.stops raw = some c
        ∧ process env nlq i d
            = ⟨(applyIntelligentFallbackStrategy i (validateSql env.db i d) c
                  (validateSql env.db c d)).1,
               (applyIntelligentFallbackStrategy i (validateSql env.db i d) c
                  (validateSql env.db c d)).2, 1⟩)
    ∨ process env nlq i d
        = ⟨(applyIntelligentFallbackStrategy i (validateSql env.db i d) i
              ⟨false, some (pys "No corrected SQL to validate"), none⟩).1,
           (applyIntelligentFallbackStrategy i (validateSql env.db i d) i
              ⟨false, some (pys "No corrected SQL to validate"), none⟩).2, 1⟩ := by
  by_cases hdec : (shouldAttemptCorrection i (validateSql env.db i d) nlq env.randHit).1 = false
  · exact Or.inl ⟨hdec, by simp [process, hdec]⟩
  · by_cases hf : env.fault = some FaultPoint.buildPrompt
        ∨ env.fault = some FaultPoint.llmCallOther
    · exact Or.inr (Or.inl (by simp [process, hdec, hf]))
    · cases hllm : env.llmResult with
      | error e => exact Or.inr (Or.inr (Or.inl (by simp [process, hdec, hf, hllm])))
      | ok raw =>
        by_cases hp : env.fault = some FaultPoint.parse
        · exact Or.inr (Or.inl (by simp [process, hdec, hf, hllm, hp]))
        · by_cases hv : env.fault = some FaultPoint.validateCorrected
          · exact Or.inr (Or.inl (by simp [process, hdec, hf, hllm, hp, hv]))
          · by_cases ha : env.fault = some FaultPoint.arbitrate
            · exact Or.inr (Or.inl (by simp [process, hdec, hf, hllm, hp, hv, ha]))
            · cases hpar : truthyOpt (parseLlmResponse env.stops raw) with
              | none =>
                refine Or.inr (Or.inr (Or.inr (Or.inr ?_)))
                simp [process, hdec, hf, hllm, hp, hv, ha, hpar]
              | some c =>
                refine Or.inr (Or.inr (Or.inr (Or.inl
                  ⟨raw, c, rfl, truthyOpt_eq_some hpar, ?_⟩)))
                simp [process, hdec, hf, hllm, hp, hv, ha, hpar]

/-- Claim C1: for every request processed by `process`, the returned final
    SQL is, character for character, either the initial SQL of the request or
    the corrected SQL parsed from the LLM response; no other string is ever
    returned. -/
theorem process_final_sql_closed (env : ProcEnv) (nlq i d : PyStr) :
    (process env nlq i d).final_sql = i
      ∨ ∃ raw, env.llmResult = Except.ok raw
          ∧ parseLlmResponse env.stops raw = some ((process env nlq i d).final_sql) := by
  rcases process_cases env nlq i d with ⟨_, h⟩ | h | h | ⟨raw, c, hllm, hpar, h⟩ | h
  · exact Or.inl (by rw [h])
  · exact Or.inl (by rw [h])
  · exact Or.inl (by rw [h])
  · rcases fallback_fst_mem i c (validateSql env.db i d) (validateSql env.db c d) with hm | hm
    · refine Or.inr ⟨raw, hllm, ?_⟩
      rw [h]
      simpa [hm] using hpar
    · exact Or.inl (by rw [h]; exact hm)
  · rcases fallback_fst_mem i i (validateSql env.db i d)
        ⟨false, some (pys "No corrected SQL to validate"), none⟩ with hm | hm
    · exact Or.inl (by rw [h]; exact hm)
    · exact Or.inl (by rw [h]; exact hm)

/-- Step 1 of the decision policy, in isolation: a non-executable validation
    result makes `_should_attempt_correction` return immediately. -/
theorem shouldAttempt_nonexec (sql nlq : PyStr) (vr : ExecutionResult) (r : Bool)
    (h : vr.is_executable = false) :
    shouldAttemptCorrection sql vr nlq r = (true, pys "SQL不可执行") := by
  unfold shouldAttemptCorrection
  rw [if_pos (by simp [h])]

/-- Claim C3: when the initial SQL's validation result is not executable, the
    decision policy returns attempt = true with the "not executable" reason,
    before any lexical, question-based or random rule and regardless of the
    SQL text, the question, or the randomness draw; consequently `process`
    never takes the skip (`no_correction_needed`) path for non-executable
    initial SQL. -/
theorem decision_step_one_unconditional :
    (∀ (sql nlq : PyStr) (vr : ExecutionResult) (r : Bool),
      vr.is_executable = false →
        shouldAttemptCorrection sql vr nlq r = (true, pys "SQL不可执行"))
    ∧ (∀ (env : ProcEnv) (nlq i d : PyStr),
      (validateSql env.db i d).is_executable = false →
        (process env nlq i d).status ≠ pys "no_correction_needed") := by
  constructor
  · exact fun sql nlq vr r h => shouldAttempt_nonexec sql nlq vr r h
  · intro env nlq i d h
    have hdec : (shouldAttemptCorrection i (validateSql env.db i d) nlq env.randHit).1 = true := by
      rw [shouldAttempt_nonexec i nlq (validateSql env.db i d) env.randHit h]
    rcases process_cases env nlq i d with ⟨hd, _⟩ | hp | hp | ⟨raw, c, _, _, hp⟩ | hp
    · rw [hdec] at hd; exact absurd hd (by decide)
    · rw [hp]
      exact (by decide : pys "internal_error" ≠ pys "no_correction_needed")
    · rw [hp]
      exact (by decide : pys "api_error" ≠ pys "no_correction_needed")
    · rw [hp]
      rcases fallback_snd_mem i c (validateSql env.db i d) (validateSql env.db c d)
          with hs | hs | hs | hs
      · rw [hs]; exact (by decide : pys "corrected" ≠ pys "no_correction_needed")
      · rw [hs]
        exact (by decide : pys "fallback_corrected_too_complex" ≠ pys "no_correction_needed")
      · rw [hs]; exact (by decide : pys "fallback_to_initial" ≠ pys "no_correction_needed")
      · rw [hs]; exact (by decide : pys "both_not_executable" ≠ pys "no_correction_needed")
    · rw [hp]
      rcases fallback_snd_mem i i (validateSql env.db i d)
          ⟨false, some (pys "No corrected SQL to validate"), none⟩
          with hs | hs | hs | hs
      · rw [hs]; exact (by decide : pys "corrected" ≠ pys "no_correction_needed")
      · rw [hs]
        exact (by decide : pys "fallback_corrected_too_complex" ≠ pys "no_correction_needed")
      · rw [hs]; exact (by decide : pys "fallback_to_initial" ≠ pys "no_correction_needed")
      · rw [hs]; exact (by decide : pys "both_not_executable" ≠ pys "no_correction_needed")

/-- Claim C4: `process` never propagates an exception (in the embedding it is
    total by construction, mirroring the `try/except/finally` of lines
    86–183): when the LLM call fails with `LLMError` the request degrades to
    `(initial SQL, "api_error")`, and when any other unhandled fault occurs
    downstream of the decision step (at any injected fault point that is
    actually reached) it degrades to `(initial SQL, "internal_error")`. -/
theorem process_error_degradation (env : ProcEnv) (nlq i d : PyStr) :
    ((shouldAttemptCorrection i (validateSql env.db i d) nlq env.randHit).1 = true →
      env.fault = none →
      ∀ e, env.llmResult = Except.error e →
        process env nlq i d = ⟨i, pys "api_error", 2⟩)
    ∧ (∀ p, (shouldAttemptCorrection i (validateSql env.db i d) nlq env.randHit).1 = true →
        env.fault = some p →
        (p = FaultPoint.buildPrompt ∨ p = FaultPoint.llmCallOther
          ∨ ∃ raw, env.llmResult = Except.ok raw) →
        (process env nlq i d).final_sql = i
          ∧ (process env nlq i d).status = pys "internal_error") := by
  constructor
  · intro hdec hfault e hllm
    simp [process, hdec, hfault, hllm]
  · intro p hdec hp hreach
    rcases hreach with h | h | ⟨raw, hraw⟩
    · subst h
      constructor <;> simp [process, hdec, hp]
    · subst h
      constructor <;> simp [process, hdec, hp]
    · cases p <;> constructor <;> simp [process, hdec, hp, hraw]

/-- Amended claim C7: `process` creates the audit record once per request,
    but the number of `_save_log` writes depends on the path taken: the skip
    (`no_correction_needed`) path and the `LLMError` (`api_error`) path save
    the record early (lines 101 and 141) and then the `finally` block (line
    182) saves it a second time, so those two paths write the record twice,
    while every other path writes it exactly once (only in `finally`). -/
theorem audit_write_count_characterization (env : ProcEnv) (nlq i d : PyStr) :
    (process env nlq i d).saves =
      (if (process env nlq i d).status = pys "no_correction_needed"
          ∨ (process env nlq i d).status = pys "api_error" then 2 else 1) := by
  rcases process_cases env nlq i d with ⟨_, hp⟩ | hp | hp | ⟨raw, c, _, _, hp⟩ | hp
  · rw [hp]
    exact (by decide : (2 : Nat) =
      if pys "no_correction_needed" = pys "no_correction_needed"
          ∨ pys "no_correction_needed" = pys "api_error" then 2 else 1)
  · rw [hp]
    exact (by decide : (1 : Nat) =
      if pys "internal_error" = pys "no_correction_needed"
          ∨ pys "internal_error" = pys "api_error" then 2 else 1)
  · rw [hp]
    exact (by decide : (2 : Nat) =
      if pys "api_error" = pys "no_correction_needed"
          ∨ pys "api_error" = pys "api_error" then 2 else 1)
  · rw [hp]
    rcases fallback_snd_mem i c (validateSql env.db i d) (validateSql env.db c d)
        with hs | hs | hs | hs <;> rw [hs]
    · exact (by decide : (1 : Nat) =
        if pys "corrected" = pys "no_correction_needed"
            ∨ pys "corrected" = pys "api_error" then 2 else 1)
    · exact (by decide : (1 : Nat) =
        if pys "fallback_corrected_too_complex" = pys "no_correction_needed"
            ∨ pys "fallback_corrected_too_complex" = pys "api_error" then 2 else 1)
    · exact (by decide : (1 : Nat) =
        if pys "fallback_to_initial" = pys "no_correction_needed"
            ∨ pys "fallback_to_initial" = pys "api_error" then 2 else 1)
    · exact (by decide : (1 : Nat) =
        if pys "both_not_executable" = pys "no_correction_needed"
            ∨ pys "both_not_executable" = pys "api_error" then 2 else 1)
  · rw [hp]
    rcases fallback_snd_mem i i (validateSql env.db i d)
        ⟨false, some (pys "No corrected SQL to validate"), none⟩
        with hs | hs | hs | hs <;> rw [hs]
    · exact (by decide : (1 : Nat) =
        if pys "corrected" = pys "no_correction_needed"
            ∨ pys "corrected" = pys "api_error" then 2 else 1)
    · exact (by decide : (1 : Nat) =
        if pys "fallback_corrected_too_complex" = pys "no_correction_needed"
            ∨ pys "fallback_corrected_too_complex" = pys "api_error" then 2 else 1)
    · exact (by decide : (1 : Nat) =
        if pys "fallback_to_initial" = pys "no_correction_needed"
            ∨ pys "fallback_to_initial" = pys "api_error" then 2 else 1)
    · exact (by decide : (1 : Nat) =
        if pys "both_not_executable" = pys "no_correction_needed"
            ∨ pys "both_not_executable" = pys "api_error" then 2 else 1)

/-! ### Concrete oracles and environments for witnesses and counterexamples -/

/-- A database engine on which every statement executes and every SELECT
    fetch returns 3 rows. -/
def dbAllOk : DbOracle :=
  { dbExists := true, exec := fun _ => ExecOutcome.ok, fetch := fun _ => some 3 }

/-- A database engine on which every statement fails with a syntax error. -/
def dbSyntaxErr : DbOracle :=
  { dbExists := true,
    exec := fun _ => ExecOutcome.operationalError (pys "near SELEC: syntax error"),
    fetch := fun _ => none }

/-- Environment driving `process` down the skip path. -/
def envSkip : ProcEnv :=
  { db := dbAllOk, stops := configStops, randHit := false,
    llmResult := Except.ok (pys "SELECT count(*) FROM head"), fault := none }

/-- Environment with a non-executable initial SQL and a failing LLM call. -/
def envApiError : ProcEnv :=
  { db := dbSyntaxErr, stops := configStops, randHit := false,
    llmResult := Except.error (pys "API request timed out after 6 attempts"),
    fault := none }

/-- Environment with a non-executable initial SQL and an unhandled fault at
    the response-parsing step. -/
def envParseFault : ProcEnv :=
  { db := dbSyntaxErr, stops := configStops, randHit := false,
    llmResult := Except.ok (pys "SELECT count(*) FROM head"),
    fault := some FaultPoint.parse }

/-- Counterexample to claim C7 as stated: on the skip path and on the
    `api_error` path the audit record is written twice, not exactly once. -/
theorem process_writes_twice_on_skip_and_api_error :
    (process envSkip (pys "show all entries") (pys "SELECT x FROM t")
        (pys "database/dogs/dogs.sqlite")).saves = 2
    ∧ (process envApiError (pys "how many heads") (pys "SELEC x FROM t")
        (pys "database/dogs/dogs.sqlite")).saves = 2 := by
  constructor <;> decide

/-- Witness for claim C3's theorem at concrete inputs. -/
theorem decision_step_one_unconditional_witness :
    shouldAttemptCorrection (pys "SELEC x FROM t")
        ⟨false, some (pys "Syntax error: near SELEC"), none⟩ (pys "how many heads") false
      = (true, pys "SQL不可执行")
    ∧ (process envApiError (pys "how many heads") (pys "SELEC x FROM t")
        (pys "database/dogs/dogs.sqlite")).status ≠ pys "no_correction_needed" := by
  constructor
  · exact decision_step_one_unconditional.1 _ _ _ _ rfl
  · exact decision_step_one_unconditional.2 envApiError _ _ _ (by decide)

/-- Witness for claim C4's theorem at concrete inputs. -/
theorem process_error_degradation_witness :
    process envApiError (pys "how many heads") (pys "SELEC y FROM t")
        (pys "database/dogs/dogs.sqlite") = ⟨pys "SELEC y FROM t", pys "api_error", 2⟩
    ∧ (process envParseFault (pys "how many heads") (pys "SELEC y FROM t")
          (pys "database/dogs/dogs.sqlite")).final_sql = pys "SELEC y FROM t"
    ∧ (process envParseFault (pys "how many heads") (pys "SELEC y FROM t")
          (pys "database/dogs/dogs.sqlite")).status = pys "internal_error" := by
  refine ⟨?_, ?_⟩
  · exact (process_error_degradation envApiError (pys "how many heads")
      (pys "SELEC y FROM t") (pys "database/dogs/dogs.sqlite")).1 (by decide) rfl _ rfl
  · have h := (process_error_degradation envParseFault (pys "how many heads")
      (pys "SELEC y FROM t") (pys "database/dogs/dogs.sqlite")).2 FaultPoint.parse
      (by decide) rfl (Or.inr (Or.inr ⟨pys "SELECT count(*) FROM head", rfl⟩))
    exact ⟨h.1, h.2⟩

/-! ## Scope of the decision policy's empty-result rule (claim C9) -/

/-- Chaining step for walking an `if` cascade of `(flag, reason)` pairs: if
    the whole cascade produced reason `z` but the `then` branch's reason is
    not `z`, the `else` cascade produced `z`. -/
theorem ite_pair_snd {c : Prop} [Decidable c] {x y : Bool × PyStr} {z : PyStr}
    (h : (if c then x else y).2 = z) (hx : x.2 ≠ z) : y.2 = z := by
  by_cases hc : c
  · rw [if_pos hc] at h
    exact absurd h hx
  · rwa [if_neg hc] at h

/-- If the decision policy produced the "executable but empty result" reason,
    then the validation record was executable with a counted row total of
    exactly zero. -/
theorem shouldAttempt_empty_reason_imp (sql nlq : PyStr) (vr : ExecutionResult) (r : Bool)
    (h : (shouldAttemptCorrection sql vr nlq r).2 = pys "SQL可执行但返回空结果") :
    vr.is_executable = true ∧ vr.result_count = some 0 := by
  cases hex : vr.is_executable
  · rw [shouldAttempt_nonexec sql nlq vr r hex] at h
    exact absurd h (by decide)
  · by_cases hrc : vr.result_count = some 0
    · exact ⟨rfl, hrc⟩
    · exfalso
      unfold shouldAttemptCorrection at h
      rw [if_neg (by simp [hex]), if_neg hrc] at h
      have h1 := ite_pair_snd h (by decide)
      have h2 := ite_pair_snd h1 (by decide)
      have h3 := ite_pair_snd h2 (by decide)
      have h4 := ite_pair_snd h3 (by decide)
      have h5 := ite_pair_snd h4 (by decide)
      have h6 := ite_pair_snd h5 (by decide)
      have h7 := ite_pair_snd h6 (by decide)
      have h8 := ite_pair_snd h7 (by decide)
      have h9 := ite_pair_snd h8 (by decide)
      have h10 := ite_pair_snd h9 (by decide)
      have h11 := ite_pair_snd h10 (by decide)
      have h12 := ite_pair_snd h11 (by decide)
      exact absurd h12 (by decide)

/-- `execute_sql` carries a (non-`None`) result count only when fetching was
    requested, the cleaned statement starts with `SELECT` (case-insensitive),
    and the row fetch itself succeeded. -/
theorem executeSql_result_count (db : DbOracle) (sql d : PyStr) (fr : Bool)
    (h : (executeSql db sql d fr).result_count ≠ none) :
    fr = true
    ∧ List.isPrefixOf (pys "SELECT") (pyUpper (pyStrip (cleanSql sql))) = true
    ∧ db.fetch (cleanSql sql) ≠ none := by
  unfold executeSql at h
  split at h
  · exact absurd rfl h
  · split at h
    · exact absurd rfl h
    · split at h
      · exact absurd rfl h
      · split at h
        · rename_i heq
          have h' : (if fr && List.isPrefixOf (pys "SELECT") (pyUpper (pyStrip (cleanSql sql)))
              then db.fetch (cleanSql sql) else none) ≠ none := h
          by_cases hc : (fr && List.isPrefixOf (pys "SELECT")
              (pyUpper (pyStrip (cleanSql sql)))) = true
          · rw [if_pos hc] at h'
            exact ⟨(Bool.and_eq_true _ _).mp hc |>.1, (Bool.and_eq_true _ _).mp hc |>.2, h'⟩
          · rw [if_neg hc] at h'
            exact absurd rfl h'
        · exact absurd rfl h
        · exact absurd rfl h
        · exact absurd rfl h
        · exact absurd rfl h

/-- Claim C9 (implicit): the decision policy's "empty result" rule fires only
    when the validator counted exactly zero result rows; the validator counts
    rows only for statements whose cleaned text starts with SELECT
    (case-insensitive) and whose results were fetchable; hence an executable
    non-SELECT statement, or a SELECT whose row fetch failed, never yields
    the "empty result" correction reason. -/
theorem empty_result_rule_scope :
    (∀ (sql nlq : PyStr) (vr : ExecutionResult) (r : Bool),
      (shouldAttemptCorrection sql vr nlq r).2 = pys "SQL可执行但返回空结果" →
        vr.is_executable = true ∧ vr.result_count = some 0)
    ∧ (∀ (db : DbOracle) (sql d : PyStr) (fr : Bool),
      (executeSql db sql d fr).result_count ≠ none →
        fr = true
        ∧ List.isPrefixOf (pys "SELECT") (pyUpper (pyStrip (cleanSql sql))) = true
        ∧ db.fetch (cleanSql sql) ≠ none)
    ∧ (∀ (db : DbOracle) (sql d nlq : PyStr) (fr r : Bool),
      (List.isPrefixOf (pys "SELECT") (pyUpper (pyStrip (cleanSql sql))) = false
        ∨ db.fetch (cleanSql sql) = none) →
      (shouldAttemptCorrection sql (executeSql db sql d fr) nlq r).2
        ≠ pys "SQL可执行但返回空结果") := by
  refine ⟨fun sql nlq vr r h => shouldAttempt_empty_reason_imp sql nlq vr r h,
    fun db sql d fr h => executeSql_result_count db sql d fr h,
    fun db sql d nlq fr r h hcon => ?_⟩
  have h2 := shouldAttempt_empty_reason_imp sql nlq (executeSql db sql d fr) r hcon
  have h3 : (executeSql db sql d fr).result_count ≠ none := by
    rw [h2.2]; simp
  have h4 := executeSql_result_count db sql d fr h3
  rcases h with h | h
  · rw [h4.2.1] at h
    exact absurd h (by decide)
  · exact absurd h h4.2.2

/-! ## Statement extraction keywords (claim C6) -/

/-- A comment line for the purposes of statement extraction (line 451 skips
    lines starting with `#`, `--` or `Note:`). -/
def isCommentLine (l : PyStr) : Bool :=
  List.isPrefixOf (pys "#") l || List.isPrefixOf (pys "--") l
    || List.isPrefixOf (pys "Note:") l

/-- The candidate a scanned line yields: strip, remove trailing statement
    terminators, strip again. -/
def extractedCandidate (line : PyStr) : PyStr := pyStrip (rstripSemi (pyStrip line))

/-- A line qualifies for statement extraction: non-blank, not a comment line,
    candidate longer than 10 characters, candidate contains one of the
    statement keywords SELECT/INSERT/UPDATE/DELETE (case-insensitive). -/
def lineQualifies (line : PyStr) : Bool :=
  ! (pyStrip line).isEmpty && ! isCommentLine (pyStrip line)
    && decide ((extractedCandidate line).length > 10)
    && extractKeywords.any (fun k => containsSub (pyUpper (extractedCandidate line)) k)

/-- The line scan accepts a line exactly when it qualifies, yielding its
    candidate. -/
theorem lineCandidate_eq (line : PyStr) :
    lineCandidate line
      = if lineQualifies line then some (extractedCandidate line) else none := by
  simp only [lineCandidate, lineQualifies, extractedCandidate, isCommentLine]
  cases hne : (pyStrip line).isEmpty <;>
    cases hh : List.isPrefixOf (pys "#") (pyStrip line) <;>
    cases hd : List.isPrefixOf (pys "--") (pyStrip line) <;>
    cases hn : List.isPrefixOf (pys "Note:") (pyStrip line) <;>
    cases hl : decide ((pyStrip (rstripSemi (pyStrip line))).length > 10) <;>
    cases ha : extractKeywords.any
      (fun k => containsSub (pyUpper (pyStrip (rstripSemi (pyStrip line)))) k) <;>
    simp_all [List.isEmpty_iff]

/-- The first-hit scan over lines equals filtering the qualifying lines and
    taking the head's candidate. -/
theorem findSome_lineCandidate (ls : List PyStr) :
    ls.findSome? lineCandidate
      = (ls.filter lineQualifies).head?.map extractedCandidate := by
  induction ls with
  | nil => rfl
  | cons l ls ih =>
    cases hq : lineQualifies l <;>
      simp [List.findSome?_cons, List.filter_cons, hq, lineCandidate_eq l, ih]

/-- Counterexample to claim C6 as stated: the line `WITH cte AS material` is
    non-blank, is not a comment line, its trimmed candidate is longer than 10
    characters and contains the statement keyword `WITH` — yet statement
    extraction (whose keyword list is only SELECT/INSERT/UPDATE/DELETE)
    rejects it and returns none. -/
theorem extract_rejects_with_only_line :
    (extractedCandidate (pys "WITH cte AS material")).length > 10
    ∧ containsSub (pyUpper (extractedCandidate (pys "WITH cte AS material"))) (pys "WITH") = true
    ∧ isCommentLine (pys "WITH cte AS material") = false
    ∧ pyStrip (pys "WITH cte AS material") ≠ []
    ∧ extractSqlFromText configStops (pys "WITH cte AS material") = none := by
  decide

/-- Amended claim C6: statement extraction strips fences, truncates at each
    configured stop sequence, scans lines top-to-bottom skipping blank and
    comment lines (those starting with `#`, `--` or `Note:`), and accepts the
    first line whose candidate — the line trimmed of a trailing statement
    terminator — is longer than 10 characters and contains a statement
    keyword, where the statement keywords are SELECT/INSERT/UPDATE/DELETE
    (not WITH); it returns none when no line qualifies, and in particular a
    qualifying line whose only statement keyword is WITH is rejected. -/
theorem extraction_characterization :
    (∀ (stops : List PyStr) (text : PyStr),
      extractSqlFromText stops text =
        if text = [] then none
        else ((splitOnChar '\n' (applyStopSeqs stops (stripCodeFence text))).filter
                lineQualifies).head?.map extractedCandidate)
    ∧ extractSqlFromText configStops (pys "WITH cte AS material") = none
    ∧ extractSqlFromText configStops (pys "```sql\nSELECT name FROM singer;\n```")
        = some (pys "SELECT name FROM singer")
    ∧ extractSqlFromText configStops
        (pys "-- a comment\nNote: an explanation\nSELECT name FROM singer;")
        = some (pys "SELECT name FROM singer")
    ∧ extractSqlFromText configStops (pys "SELECT 1") = none := by
  refine ⟨fun stops text => ?_, by decide, by decide, by decide, by decide⟩
  unfold extractSqlFromText
  by_cases h : text = []
  · rw [if_pos h, if_pos h]
  · rw [if_neg h, if_neg h, findSome_lineCandidate]

/-- Witness for claim C9's theorem: an executable non-SELECT statement never
    yields the "empty result" reason. -/
theorem empty_result_rule_scope_witness :
    (shouldAttemptCorrection (pys "UPDATE t SET x = 5")
        (executeSql dbAllOk (pys "UPDATE t SET x = 5") (pys "database/dogs/dogs.sqlite") true)
        (pys "update the value") false).2
      ≠ pys "SQL可执行但返回空结果" := by
  exact empty_result_rule_scope.2.2 dbAllOk (pys "UPDATE t SET x = 5")
    (pys "database/dogs/dogs.sqlite") (pys "update the value") true false
    (Or.inl (by decide))

/-! ## Batch entry point (`self_correction_main`, lines 500–544) -/

/-- Python `zip(xs, ys, zs)`: truncates to the shortest input. -/
def pyZip3 {α β γ : Type} : List α → List β → List γ → List (α × β × γ)
  | a :: as, b :: bs, c :: cs => (a, b, c) :: pyZip3 as bs cs
  | _, _, _ => []

/-- Embedding of the zip loop of `self_correction_main` (lines 523–527):
    one `module.process` call per zipped `(sql, db_id, question)` triple,
    collecting the final SQL of each in order.  `processOne` abstracts
    `module.process` applied to the triple (the schema and database path are
    looked up from the configuration by `db_id`). -/
def selfCorrectionMain (processOne : PyStr → PyStr → PyStr → PyStr × PyStr)
    (predict_sqls db_ids questions : List PyStr) : List PyStr :=
  (pyZip3 predict_sqls db_ids questions).map (fun t => (processOne t.1 t.2.1 t.2.2).1)

theorem pyZip3_length {α β γ : Type} :
    ∀ (as : List α) (bs : List β) (cs : List γ),
      (pyZip3 as bs cs).length = min as.length (min bs.length cs.length)
  | [], bs, cs => by cases bs <;> cases cs <;> simp [pyZip3]
  | a :: as, [], cs => by cases cs <;> simp [pyZip3]
  | a :: as, b :: bs, [] => by simp [pyZip3]
  | a :: as, b :: bs, c :: cs => by
    have ih := pyZip3_length as bs cs
    simp only [pyZip3, List.length_cons, ih]
    omega

theorem pyZip3_getElem {α β γ : Type} :
    ∀ (as : List α) (bs : List β) (cs : List γ) (i : Nat)
      (h1 : i < as.length) (h2 : i < bs.length) (h3 : i < cs.length),
      (pyZip3 as bs cs)[i]? = some (as[i], bs[i], cs[i])
  | a :: as, b :: bs, c :: cs, 0, _, _, _ => by simp [pyZip3]
  | a :: as, b :: bs, c :: cs, i + 1, h1, h2, h3 => by
    have ih := pyZip3_getElem as bs cs i (by simpa using h1) (by simpa using h2)
      (by simpa using h3)
    simpa [pyZip3] using ih

/-- Claim C10 (implicit): `self_correction_main` processes exactly the first
    `min(len(predict_sqls), len(db_ids), len(questions))` requests — trailing
    items of any longer list are silently dropped — and returns one final SQL
    per processed request, in input order. -/
theorem batch_zip_truncation (f : PyStr → PyStr → PyStr → PyStr × PyStr)
    (ss ds qs : List PyStr) :
    (selfCorrectionMain f ss ds qs).length = min ss.length (min ds.length qs.length)
    ∧ ∀ (i : Nat) (h1 : i < ss.length) (h2 : i < ds.length) (h3 : i < qs.length),
        (selfCorrectionMain f ss ds qs)[i]? = some (f ss[i] ds[i] qs[i]).1 := by
  constructor
  · simp [selfCorrectionMain, pyZip3_length]
  · intro i h1 h2 h3
    simp [selfCorrectionMain, pyZip3_getElem ss ds qs i h1 h2 h3]

/-- Witness for claim C10's theorem: three parallel lists of lengths 3, 2 and
    4 yield exactly two outputs, in input order. -/
theorem batch_zip_truncation_witness :
    (selfCorrectionMain (fun s d q => (s ++ d ++ q, pys "corrected"))
        [pys "s1", pys "s2", pys "s3"] [pys "d1", pys "d2"]
        [pys "q1", pys "q2", pys "q3", pys "q4"]).length = 2
    ∧ (selfCorrectionMain (fun s d q => (s ++ d ++ q, pys "corrected"))
        [pys "s1", pys "s2", pys "s3"] [pys "d1", pys "d2"]
        [pys "q1", pys "q2", pys "q3", pys "q4"])[1]? = some (pys "s2d2q2") := by
  constructor
  · exact (batch_zip_truncation (fun s d q => (s ++ d ++ q, pys "corrected"))
      [pys "s1", pys "s2", pys "s3"] [pys "d1", pys "d2"]
      [pys "q1", pys "q2", pys "q3", pys "q4"]).1.trans (by decide)
  · exact ((batch_zip_truncation (fun s d q => (s ++ d ++ q, pys "corrected"))
      [pys "s1", pys "s2", pys "s3"] [pys "d1", pys "d2"]
      [pys "q1", pys "q2", pys "q3", pys "q4"]).2 1 (by decide) (by decide)
      (by decide)).trans (by decide)

/-! ## LLM client retry loop (`QwenAPIClient.get_correction`, fixed.py lines
    343–383) -/

/-- Outcome of one transport attempt: a successful response body, a request
    timeout (`requests.exceptions.Timeout`), or another transport error
    (`requests.exceptions.RequestException`) carrying its message. -/
inductive AttemptOutcome where
  | success (text : PyStr)
  | timeout
  | reqError (msg : PyStr)
  deriving DecidableEq, Repr

/-- Result of the whole retry loop: a returned body, a raised `LLMError`
    message, or the (unreachable from attempt 0) implicit `None` fall-through
    of the Python `for` loop. -/
inductive CallResult where
  | ok (text : PyStr)
  | err (msg : PyStr)
  | fellThrough
  deriving DecidableEq, Repr

/-- The loop's observable behaviour: result, number of attempts made, and the
    backoff sleeps in order. -/
structure RetryTrace where
  result : CallResult
  attempts : Nat
  sleeps : List Nat
  deriving DecidableEq, Repr

/-- The rate-limit test of line 374: `"rate limit" in str(e).lower() or "429"
    in str(e)`. -/
def isRateLimitMsg (m : PyStr) : Bool :=
  containsSub (pyLower m) (pys "rate limit") || containsSub m (pys "429")

/-- Decimal rendering of a number interpolated into an f-string. -/
def natStr (n : Nat) : PyStr := (Nat.repr n).data

/-- `LLMError(f"API request timed out after {max_retries + 1} attempts")`. -/
def timeoutMsg (mr : Nat) : PyStr :=
  pys "API request timed out after " ++ natStr (mr + 1) ++ pys " attempts"

/-- `LLMError(f"Rate limit exceeded after {max_retries + 1} attempts")`. -/
def rateLimitMsg (mr : Nat) : PyStr :=
  pys "Rate limit exceeded after " ++ natStr (mr + 1) ++ pys " attempts"

/-- `LLMError(f"API request failed: {e}")`. -/
def apiFailMsg (m : PyStr) : PyStr := pys "API request failed: " ++ m

/-- One unrolling of the `for attempt in range(max_retries + 1)` loop of
    `get_correction`, with `fuel` iterations remaining: on timeout sleep
    `2^attempt` and retry, raising after the last attempt; on a rate-limited
    transport error sleep `5 * (attempt + 1)`; on any other transport error
    sleep `2^attempt`; `tr` is the transport oracle indexed by attempt. -/
def runAttempts (mr : Nat) (tr : Nat → AttemptOutcome) :
    Nat → Nat → List Nat → RetryTrace
  | 0, attempt, sleeps => ⟨CallResult.fellThrough, attempt, sleeps.reverse⟩
  | fuel + 1, attempt, sleeps =>
    match tr attempt with
    | AttemptOutcome.success t => ⟨CallResult.ok t, attempt + 1, sleeps.reverse⟩
    | AttemptOutcome.timeout =>
      if attempt = mr then ⟨CallResult.err (timeoutMsg mr), attempt + 1, sleeps.reverse⟩
      else runAttempts mr tr fuel (attempt + 1) (2 ^ attempt :: sleeps)
    | AttemptOutcome.reqError m =>
      if isRateLimitMsg m then
        if attempt = mr then
          ⟨CallResult.err (rateLimitMsg mr), attempt + 1, sleeps.reverse⟩
        else runAttempts mr tr fuel (attempt + 1) (5 * (attempt + 1) :: sleeps)
      else
        if attempt = mr then ⟨CallResult.err (apiFailMsg m), attempt + 1, sleeps.reverse⟩
        else runAttempts mr tr fuel (attempt + 1) (2 ^ attempt :: sleeps)

/-- Embedding of `QwenAPIClient.get_correction` for `max_retries = mr`. -/
def getCorrection (mr : Nat) (tr : Nat → AttemptOutcome) : RetryTrace :=
  runAttempts mr tr (mr + 1) 0 []

/-- `[2^a, 2^(a+1), …]` of length `n`: the exponential backoff schedule. -/
def powSleeps : Nat → Nat → List Nat
  | _, 0 => []
  | a, n + 1 => 2 ^ a :: powSleeps (a + 1) n

/-- `[5*(a+1), 5*(a+2), …]` of length `n`: the rate-limit backoff schedule. -/
def rlSleeps : Nat → Nat → List Nat
  | _, 0 => []
  | a, n + 1 => 5 * (a + 1) :: rlSleeps (a + 1) n

theorem runAttempts_timeout (mr : Nat) (tr : Nat → AttemptOutcome)
    (h : ∀ k, tr k = AttemptOutcome.timeout) :
    ∀ (fuel a : Nat) (sleeps : List Nat), a + fuel = mr + 1 → a ≤ mr →
      runAttempts mr tr fuel a sleeps
        = ⟨CallResult.err (timeoutMsg mr), mr + 1,
           sleeps.reverse ++ powSleeps a (mr - a)⟩ := by
  intro fuel
  induction fuel with
  | zero => intro a sleeps h1 h2; omega
  | succ f ih =>
    intro a sleeps h1 h2
    by_cases ha : a = mr
    · subst ha
      simp [runAttempts, h a, Nat.sub_self, powSleeps]
    · have h2' : a + 1 ≤ mr := by omega
      have h1' : (a + 1) + f = mr + 1 := by omega
      have hstep : mr - a = (mr - (a + 1)) + 1 := by omega
      rw [runAttempts]
      simp only [h a]
      rw [if_neg ha, ih (a + 1) (2 ^ a :: sleeps) h1' h2', hstep, powSleeps]
      simp

theorem runAttempts_rateLimit (mr : Nat) (tr : Nat → AttemptOutcome)
    (h : ∀ k, ∃ m, tr k = AttemptOutcome.reqError m ∧ isRateLimitMsg m = true) :
    ∀ (fuel a : Nat) (sleeps : List Nat), a + fuel = mr + 1 → a ≤ mr →
      runAttempts mr tr fuel a sleeps
        = ⟨CallResult.err (rateLimitMsg mr), mr + 1,
           sleeps.reverse ++ rlSleeps a (mr - a)⟩ := by
  intro fuel
  induction fuel with
  | zero => intro a sleeps h1 h2; omega
  | succ f ih =>
    intro a sleeps h1 h2
    obtain ⟨m, hm, hrl⟩ := h a
    by_cases ha : a = mr
    · subst ha
      simp [runAttempts, hm, hrl, Nat.sub_self, rlSleeps]
    · have h2' : a + 1 ≤ mr := by omega
      have h1' : (a + 1) + f = mr + 1 := by omega
      have hstep : mr - a = (mr - (a + 1)) + 1 := by omega
      rw [runAttempts]
      simp only [hm]
      rw [if_pos hrl, if_neg ha, ih (a + 1) (5 * (a + 1) :: sleeps) h1' h2',
        hstep, rlSleeps]
      simp

/-- Claim C5: against a transport that fails on every attempt,
    `get_correction` makes exactly `max_retries + 1` attempts; if every
    attempt times out, it sleeps `2^attempt` between attempts and finally
    raises `LLMError` carrying the timed-out-after-N-attempts classification
    (N = `max_retries + 1`); if every attempt fails with a rate-limit
    indication (rate-limit keyword or HTTP 429 in the message), it sleeps
    `5 * (attempt + 1)` between attempts and finally raises `LLMError`
    indicating the rate limit was exceeded. -/
theorem retry_exhaustion_schedules (mr : Nat) (tr : Nat → AttemptOutcome) :
    ((∀ k, tr k = AttemptOutcome.timeout) →
      getCorrection mr tr
        = ⟨CallResult.err (timeoutMsg mr), mr + 1, powSleeps 0 mr⟩)
    ∧ ((∀ k, ∃ m, tr k = AttemptOutcome.reqError m ∧ isRateLimitMsg m = true) →
      getCorrection mr tr
        = ⟨CallResult.err (rateLimitMsg mr), mr + 1, rlSleeps 0 mr⟩) := by
  constructor
  · intro h
    have := runAttempts_timeout mr tr h (mr + 1) 0 [] (by omega) (by omega)
    simpa [getCorrection] using this
  · intro h
    have := runAttempts_rateLimit mr tr h (mr + 1) 0 [] (by omega) (by omega)
    simpa [getCorrection] using this

/-- Witness for claim C5's theorem at `max_retries = 2`: an always-timing-out
    transport yields 3 attempts, sleeps `[1, 2]`, and the timeout-exhausted
    error; an always-429 transport yields 3 attempts, sleeps `[5, 10]`, and
    the rate-limit-exceeded error. -/
theorem retry_exhaustion_schedules_witness :
    getCorrection 2 (fun _ => AttemptOutcome.timeout)
      = ⟨CallResult.err (pys "API request timed out after 3 attempts"), 3, [1, 2]⟩
    ∧ getCorrection 2 (fun _ => AttemptOutcome.reqError (pys "HTTP 429 Too Many Requests"))
      = ⟨CallResult.err (pys "Rate limit exceeded after 3 attempts"), 3, [5, 10]⟩ := by
  constructor
  · exact ((retry_exhaustion_schedules 2 (fun _ => AttemptOutcome.timeout)).1
      (fun k => rfl)).trans (by decide)
  · exact ((retry_exhaustion_schedules 2
      (fun _ => AttemptOutcome.reqError (pys "HTTP 429 Too Many Requests"))).2
      (fun k => ⟨pys "HTTP 429 Too Many Requests", rfl, by decide⟩)).trans (by decide)

/-! ## DashScope response classification
    (`QwenAPIClient._call_dashscope_api`, later, authoritative definition:
    fixed.py lines 385–432) -/

/-- The `output` object of a DashScope response payload: an optional `text`
    field and an optional `choices` array, each choice reduced to the content
    string `choices[k].get("message", {}).get("content", "")` extracts. -/
structure DashOutput where
  text : Option PyStr
  choices : Option (List PyStr)
  deriving DecidableEq, Repr

/-- A DashScope response payload, restricted to the fields the client
    consults: `status_code`, `output`, `message` (used by the later
    definition's error branch), and `error` (used only by the earlier,
    shadowed definition). -/
structure DashPayload where
  status_code : Option Nat
  output : Option DashOutput
  message : Option PyStr
  error : Option PyStr
  deriving DecidableEq, Repr

/-- Outcome of `_call_dashscope_api`: a returned body, the
    `LLMError("Unexpected DashScope response structure: …")`, or the
    `LLMError("DashScope API error: …")` carrying the extracted message. -/
inductive DashResult where
  | ok (text : PyStr)
  | errStructure
  | errApi (msg : PyStr)
  deriving DecidableEq, Repr

/-- The client's manual stop-sequence loop (lines 423–425): truncate at the
    first occurrence of each configured stop sequence, with no trimming
    between steps. -/
def truncStops (stops : List PyStr) (t : PyStr) : PyStr :=
  stops.foldl (fun acc stop => if containsSub acc stop then takeUntilSub stop acc else acc) t

/-- Embedding of the later (authoritative) `_call_dashscope_api` response
    classification (fixed.py lines 413–432): a payload is accepted only when
    `status_code == 200`; then `output.text`, else the first choice's
    content, else a structure `LLMError`; any other payload raises
    `LLMError` with the payload's `message` field (default "Unknown error").
    The `error` field is never consulted. -/
def callDashscopeLater (stops : List PyStr) (p : DashPayload) : DashResult :=
  if p.status_code = some 200 then
    match (p.output.getD ⟨none, none⟩).text with
    | some t => DashResult.ok (pyStrip (truncStops stops t))
    | none =>
      match (p.output.getD ⟨none, none⟩).choices with
      | some (c :: _) => DashResult.ok (pyStrip (truncStops stops c))
      | _ => DashResult.errStructure
  else DashResult.errApi (p.message.getD (pys "Unknown error"))

/-- Counterexample to claim C8 as stated, against the later (authoritative)
    definition: a payload carrying an output object with neither `text` nor
    `choices` fails (no stringified last resort); a payload carrying
    `output.text` but no `status_code` also fails (so "returns output.text if
    present" does not hold for every payload with an output object); and a
    payload carrying an `error` field succeeds (no hard `LLMError`). -/
theorem dashscope_later_counterexample :
    callDashscopeLater [] ⟨some 200, some ⟨none, none⟩, none, none⟩ = DashResult.errStructure
    ∧ callDashscopeLater [] ⟨none, some ⟨some (pys "SELECT 1"), none⟩, none, none⟩
        = DashResult.errApi (pys "Unknown error")
    ∧ callDashscopeLater [] ⟨some 200, some ⟨some (pys "SELECT 1"), none⟩, none,
        some (pys "boom")⟩ = DashResult.ok (pys "SELECT 1") := by
  decide

/-- Amended claim C8: under the task (DashScope) dialect, per the
    authoritative later definition, only payloads with `status_code == 200`
    are treated as successful: for these the client returns `output.text` if
    present, else the first choice's message content when the choices list is
    nonempty, else fails with a structure `LLMError` (there is no stringified
    last resort); every other payload — with or without an output object —
    fails with `LLMError` carrying the payload's `message` field (default
    "Unknown error"); an `error` field is never consulted.  Returned text is
    locally truncated at the configured stop sequences and trimmed. -/
theorem dashscope_later_characterization (stops : List PyStr) (p : DashPayload) :
    (p.status_code = some 200 →
      ((∀ t, (p.output.getD ⟨none, none⟩).text = some t →
          callDashscopeLater stops p = DashResult.ok (pyStrip (truncStops stops t)))
       ∧ (∀ c rest, (p.output.getD ⟨none, none⟩).text = none →
          (p.output.getD ⟨none, none⟩).choices = some (c :: rest) →
            callDashscopeLater stops p = DashResult.ok (pyStrip (truncStops stops c)))
       ∧ ((p.output.getD ⟨none, none⟩).text = none →
          ((p.output.getD ⟨none, none⟩).choices = none
            ∨ (p.output.getD ⟨none, none⟩).choices = some []) →
            callDashscopeLater stops p = DashResult.errStructure)))
    ∧ (p.status_code ≠ some 200 →
        callDashscopeLater stops p
          = DashResult.errApi (p.message.getD (pys "Unknown error"))) := by
  constructor
  · intro hsc
    refine ⟨fun t ht => ?_, fun c rest ht hc => ?_, fun ht hc => ?_⟩
    · simp [callDashscopeLater, hsc, ht]
    · simp [callDashscopeLater, hsc, ht, hc]
    · rcases hc with hc | hc <;> simp [callDashscopeLater, hsc, ht, hc]
  · intro hsc
    simp [callDashscopeLater, hsc]

/-- Witness for claim C8's amended theorem at concrete payloads. -/
theorem dashscope_later_characterization_witness :
    callDashscopeLater configStops
        ⟨some 200, some ⟨some (pys "SELECT 1 ---\nrest"), none⟩, none, none⟩
      = DashResult.ok (pys "SELECT 1")
    ∧ callDashscopeLater configStops
        ⟨some 404, some ⟨some (pys "SELECT 1"), none⟩, some (pys "bad request"), none⟩
      = DashResult.errApi (pys "bad request") := by
  constructor
  · exact (((dashscope_later_characterization configStops
      ⟨some 200, some ⟨some (pys "SELECT 1 ---\nrest"), none⟩, none, none⟩).1 rfl).1
      (pys "SELECT 1 ---\nrest") rfl).trans (by decide)
  · exact ((dashscope_later_characterization configStops
      ⟨some 404, some ⟨some (pys "SELECT 1"), none⟩, some (pys "bad request"), none⟩).2
      (by decide)).trans (by decide)

end SqlProject
